import Mathlib

/-!
Shallow embedding of `src/btc-indexes.py`.

Each fetcher's HTTP interaction is modelled as a value of type `Option JSON`:
`none` stands for any outcome that the fetchers normalise before touching the
body — a transport error raised by `requests.get`, a non-2xx status raised by
`raise_for_status`, or a body that `resp.json()` fails to parse.  All of these
paths raise an exception that the fetcher catches and turns into its
initialised default, so they are observationally identical.

Python `None` (either a JSON `null` value or a missing dictionary key read
through `dict.get`) is modelled by `Option.none`; `pyGet` therefore maps a
stored `null` to `none`, matching the fact that the Python code cannot
distinguish the two through `dict.get`.  Numbers are idealised as rationals
(machine floats modelled exactly).  JSON booleans do not occur in the response
shapes these endpoints return and are omitted from the JSON model; object keys
are assumed distinct, as produced by `json` decoding.
-/

namespace BtcIndexes

/-- Parsed JSON values, as produced by `resp.json()`. -/
inductive JSON where
  | null : JSON
  | num : ℚ → JSON
  | str : String → JSON
  | arr : List JSON → JSON
  | obj : List (String × JSON) → JSON

/-- `d.get(k)` on a decoded JSON object: `none` for a missing key and for a
stored `null`, since Python's `dict.get` returns `None` in both cases. -/
def pyGet (kvs : List (String × JSON)) (k : String) : Option JSON :=
  match kvs with
  | [] => none
  | (k₀, v) :: rest =>
    if k₀ = k then (match v with | JSON.null => none | _ => some v) else pyGet rest k

/-- `isinstance(x, dict)` guard: the object's key/value list when the value is
a JSON object, `none` otherwise (also when the whole response already failed). -/
def getObj : Option JSON → Option (List (String × JSON))
  | some (JSON.obj kvs) => some kvs
  | _ => none

/-- `x.get(k)` after an `isinstance(x, dict)` check, on an optional value. -/
def getField (o : Option JSON) (k : String) : Option JSON :=
  (getObj o).bind (fun kvs => pyGet kvs k)

/-- `isinstance(x, (int, float))` guard: the number when the value is numeric,
`none` otherwise. -/
def asNum : Option JSON → Option ℚ
  | some (JSON.num q) => some q
  | _ => none

/-- Python `int()` applied to a float truncates toward zero. -/
def pyIntOfRat (q : ℚ) : ℤ := if q < 0 then ⌈q⌉ else ⌊q⌋

/-- Accumulator pass over the digits of a decimal numeral. -/
def digitsToNatAux : List Char → ℕ → Option ℕ
  | [], acc => some acc
  | c :: rest, acc =>
    if c.isDigit then digitsToNatAux rest (acc * 10 + (c.toNat - 48)) else none

/-- A non-empty all-digit character list read as a natural number; `none` on
an empty list or any non-digit character. -/
def digitsToNat (l : List Char) : Option ℕ :=
  match l with
  | [] => none
  | _ => digitsToNatAux l 0

/-- Python `int()` applied to a string: an optional sign followed by at least
one digit (Python's further tolerance for surrounding whitespace and digit
separators is not needed for any response shape modelled here). -/
def pyIntOfString (s : String) : Option ℤ :=
  match s.data with
  | '-' :: rest => (digitsToNat rest).map (fun n => -(n : ℤ))
  | '+' :: rest => (digitsToNat rest).map (fun n => (n : ℤ))
  | l => (digitsToNat l).map (fun n => (n : ℤ))

/-- Python `int(x)` on a decoded JSON value: truncation for numbers, decimal
parsing for strings, an exception — hence `none` — for every other shape. -/
def pyInt : JSON → Option ℤ
  | JSON.num q => some (pyIntOfRat q)
  | JSON.str s => pyIntOfString s
  | _ => none

/-- The `new_fees` dictionary of `get_transfer_fees`: it always carries the
three fee keys, each independently optional. -/
structure Fees where
  fastestFee : Option ℚ
  halfHourFee : Option ℚ
  hourFee : Option ℚ
deriving DecidableEq

/-- `MAYER_BUY_THRESHOLD = 1.0`. -/
def MAYER_BUY_THRESHOLD : ℚ := 1

/-- `FEAR_GREED_BUY_THRESHOLD = 25`. -/
def FEAR_GREED_BUY_THRESHOLD : ℤ := 25

/-- `FEE_TRANSFER_THRESHOLD = 15`. -/
def FEE_TRANSFER_THRESHOLD : ℚ := 15

/-- `get_btc_price`: `data["bitcoin"]["usd"]`, each level guarded by the
`isinstance` checks of the source; every failed check raises `ValueError`,
is caught, and the initialised `price = None` is returned. -/
def get_btc_price (resp : Option JSON) : Option ℚ :=
  asNum (getField (getField resp "bitcoin") "usd")

/-- `get_btc_ath`: `data["market_data"]["ath"]["usd"]` with the same guard
discipline as `get_btc_price`. -/
def get_btc_ath (resp : Option JSON) : Option ℚ :=
  asNum (getField (getField (getField resp "market_data") "ath") "usd")

/-- `item[1]` inside the comprehension of `get_200_day_ma`, combined with the
fact that `sum` raises unless every extracted component is numeric: a list
item contributes a price exactly when it is an array whose index-1 element is
a number; any other shape makes the whole computation raise and yield `None`. -/
def item1Price : JSON → Option ℚ
  | JSON.arr xs =>
    match xs[1]? with
    | some (JSON.num q) => some q
    | _ => none
  | _ => none

/-- `[item[1] for item in prices_raw]` followed by `sum(prices)`: all items
must contribute a number, otherwise the computation raises. -/
def extractPrices : List JSON → Option (List ℚ)
  | [] => some []
  | item :: rest =>
    match item1Price item, extractPrices rest with
    | some q, some qs => some (q :: qs)
    | _, _ => none

/-- `get_200_day_ma`: reads `data["prices"]`, requires a non-empty list,
extracts `item[1]` of each entry, arithmetic-means them and floors
(`math.floor`) the result; every failure path returns the initialised
`ma200 = None`. -/
def get_200_day_ma (resp : Option JSON) : Option ℤ :=
  match getField resp "prices" with
  | some (JSON.arr prices_raw) =>
    if prices_raw.isEmpty then none
    else
      match extractPrices prices_raw with
      | some prices => some ⌊prices.sum / (prices.length : ℚ)⌋
      | none => none
  | _ => none

/-- `get_fear_and_greed`: reads `data["data"][0]`, then `value` and
`value_classification`.  The source assigns `label` before validating
`value_raw` and before the `int(value_raw)` coercion, so a failure in either
of those later steps is caught with `label` already populated and the
`finally: return value, label` hands back the partial pair. -/
def get_fear_and_greed (resp : Option JSON) : Option ℤ × Option JSON :=
  match getField resp "data" with
  | some (JSON.arr (fg :: _)) =>
    match fg with
    | JSON.obj fgkvs =>
      match pyGet fgkvs "value", pyGet fgkvs "value_classification" with
      | some vr, some lab =>
        (match pyInt vr with
         | some v => (some v, some lab)
         | none => (none, some lab))
      | none, some lab => (none, some lab)
      | _, none => (none, none)
    | _ => (none, none)
  | _ => (none, none)

/-- One iteration of the per-key loop in `get_transfer_fees`: keep the value
when it is numeric, leave the initialised `None` otherwise. -/
def numField (kvs : List (String × JSON)) (k : String) : Option ℚ :=
  match pyGet kvs k with
  | some (JSON.num q) => some q
  | _ => none

/-- `get_transfer_fees`: the `new_fees` dictionary is initialised with the
three keys mapped to `None` before the `try`, each key is validated
independently, and the dictionary itself is always returned (`finally`). -/
def get_transfer_fees (resp : Option JSON) : Fees :=
  match getObj resp with
  | some kvs =>
    ⟨numField kvs "fastestFee", numField kvs "halfHourFee", numField kvs "hourFee"⟩
  | none => ⟨none, none, none⟩

/-- Round-half-to-even at integer precision, the rounding mode of Python's
`round` (floats idealised as exact rationals). -/
def roundHalfEven (q : ℚ) : ℤ :=
  if Int.fract q < 1 / 2 then ⌊q⌋
  else if 1 / 2 < Int.fract q then ⌊q⌋ + 1
  else if ⌊q⌋ % 2 = 0 then ⌊q⌋ else ⌊q⌋ + 1

/-- Python `round(x, 2)`. -/
def round2 (q : ℚ) : ℚ := (roundHalfEven (q * 100) : ℚ) / 100

/-- `calculate_mayer_index`: `round(price / moving_average, 2) if price and
moving_average else None`.  Python truthiness makes BOTH a missing value and
a zero value falsy, for the price as well as for the moving average. -/
def calculate_mayer_index (price : Option ℚ) (moving_average : Option ℤ) : Option ℚ :=
  match price, moving_average with
  | some p, some ma => if p ≠ 0 ∧ ma ≠ 0 then some (round2 (p / (ma : ℚ))) else none
  | _, _ => none

/-- The buy-signal chunk appended by `check_indexes`. -/
def buySignalLine : String := "\n✅ BUY SIGNAL: Conditions favorable for lump buy!"

/-- The transfer-signal chunk appended by `check_indexes`. -/
def transferSignalLine : String := "\n✅ TRANSFER SIGNAL: Conditions favorable for transfer on-chain!"

/-- The missing-data chunk appended by `check_indexes`. -/
def missingDataLine : String := "\n⚠️ Failed to fetch some data."

/-- The fallback chunk assigned by `check_indexes` when `message` is empty. -/
def noSignalsLine : String := "\nℹ️ No specific signals at this time."

/-- The buy-signal guard of `check_indexes`: `isinstance(mayer, (int, float))
and mayer < MAYER_BUY_THRESHOLD and isinstance(fear_value, (int, float)) and
fear_value <= FEAR_GREED_BUY_THRESHOLD`. -/
def buyCond (mayer : Option ℚ) (fear_value : Option ℤ) : Bool :=
  match mayer, fear_value with
  | some m, some v => decide (m < MAYER_BUY_THRESHOLD) && decide (v ≤ FEAR_GREED_BUY_THRESHOLD)
  | _, _ => false

/-- The transfer-signal guard of `check_indexes`:
`isinstance(half_hour_fee, (int, float)) and half_hour_fee <=
FEE_TRANSFER_THRESHOLD`. -/
def transferCond (half_hour_fee : Option ℚ) : Bool :=
  match half_hour_fee with
  | some h => decide (h ≤ FEE_TRANSFER_THRESHOLD)
  | none => false

/-- `missing_data = any(x is None for x in [price, btc_ath, ma200, mayer,
fear_value, fees])`. -/
def missingData (price btc_ath : Option ℚ) (ma200 : Option ℤ) (mayer : Option ℚ)
    (fear_value : Option ℤ) (fees : Option Fees) : Bool :=
  price.isNone || btc_ath.isNone || ma200.isNone || mayer.isNone ||
    fear_value.isNone || fees.isNone

/-- `check_indexes`: the message is modelled as the list of appended chunks
(the source appends the chunks, each starting with a newline, to one string;
concatenating this list in order yields that string).  The source appends the
buy-signal chunk, then the transfer-signal chunk, then the missing-data
chunk, incrementing `lines` alongside each append; if the message is still
empty it assigns the fallback chunk and increments `lines` once more.  The
`fees` argument is `none` when the Python argument is not a dict (the source
guards the `halfHourFee` access with `isinstance(fees, dict)`). -/
def check_indexes (price btc_ath : Option ℚ) (ma200 : Option ℤ) (mayer : Option ℚ)
    (fear_value : Option ℤ) (fees : Option Fees) : List String × ℕ :=
  let msg :=
    (if buyCond mayer fear_value then [buySignalLine] else []) ++
    (if transferCond (fees.bind Fees.halfHourFee) then [transferSignalLine] else []) ++
    (if missingData price btc_ath ma200 mayer fear_value fees then [missingDataLine] else [])
  let cnt :=
    (if buyCond mayer fear_value then 1 else 0) +
    (if transferCond (fees.bind Fees.halfHourFee) then 1 else 0) +
    (if missingData price btc_ath ma200 mayer fear_value fees then 1 else 0)
  if msg.isEmpty then ([noSignalsLine], cnt + 1) else (msg, cnt)

/-- One iteration of the `__main__` loop, from the five HTTP responses to
the advisory message, its line count and the number of terminal lines erased
before the next redraw (`clear_terminal_lines(lines + 7)`).  The fee mapping
handed to `check_indexes` is always the dictionary built by
`get_transfer_fees`, hence `some`. -/
def main_cycle (rPrice rInfo rRange rFng rFees : Option JSON) :
    List String × ℕ × ℕ :=
  let price := get_btc_price rPrice
  let btc_ath := get_btc_ath rInfo
  let ma200 := get_200_day_ma rRange
  let mayer := calculate_mayer_index price ma200
  let fear_value := (get_fear_and_greed rFng).1
  let fees := get_transfer_fees rFees
  let res := check_indexes price btc_ath ma200 mayer fear_value (some fees)
  (res.1, res.2, res.2 + 7)

/-- A fear/greed response whose first element carries a label but a value on
which `int()` fails. -/
def fngLabelOnlyResp : Option JSON :=
  some (JSON.obj [("data", JSON.arr
    [JSON.obj [("value", JSON.str "abc"), ("value_classification", JSON.str "Fear")]])])

/-- A fully well-formed fear/greed response. -/
def fngGoodResp : Option JSON :=
  some (JSON.obj [("data", JSON.arr
    [JSON.obj [("value", JSON.str "26"), ("value_classification", JSON.str "Fear")]])])

/-- A market-chart response carrying exactly the given `prices` list. -/
def mkPricesResp (raw : List JSON) : Option JSON :=
  some (JSON.obj [("prices", JSON.arr raw)])

/-- A fully well-formed price response. -/
def priceGoodResp : Option JSON :=
  some (JSON.obj [("bitcoin", JSON.obj [("usd", JSON.num 42)])])

/-! Helper lemmas shared by the claim theorems. -/

lemma buy_ne_transfer : buySignalLine ≠ transferSignalLine := by decide

lemma buy_ne_missing : buySignalLine ≠ missingDataLine := by decide

lemma buy_ne_nosig : buySignalLine ≠ noSignalsLine := by decide

lemma transfer_ne_missing : transferSignalLine ≠ missingDataLine := by decide

lemma transfer_ne_nosig : transferSignalLine ≠ noSignalsLine := by decide

lemma missing_ne_nosig : missingDataLine ≠ noSignalsLine := by decide

/-- The message returned by `check_indexes` is the concatenation, in source
order, of the buy-signal, transfer-signal and missing-data chunks, with the
fallback chunk exactly when none of the three fires. -/
lemma check_msg_shape (price btc_ath : Option ℚ) (ma200 : Option ℤ) (mayer : Option ℚ)
    (fear_value : Option ℤ) (fees : Option Fees) :
    (check_indexes price btc_ath ma200 mayer fear_value fees).1 =
      if buyCond mayer fear_value || transferCond (fees.bind Fees.halfHourFee) ||
          missingData price btc_ath ma200 mayer fear_value fees then
        (if buyCond mayer fear_value then [buySignalLine] else []) ++
          (if transferCond (fees.bind Fees.halfHourFee) then [transferSignalLine] else []) ++
            (if missingData price btc_ath ma200 mayer fear_value fees then [missingDataLine]
              else [])
      else [noSignalsLine] := by
  simp only [check_indexes]
  cases hb : buyCond mayer fear_value <;>
    cases ht : transferCond (fees.bind Fees.halfHourFee) <;>
      cases hm : missingData price btc_ath ma200 mayer fear_value fees <;> simp

/-- The count returned by `check_indexes` equals the length of the returned
message list. -/
lemma check_count_eq_length (price btc_ath : Option ℚ) (ma200 : Option ℤ) (mayer : Option ℚ)
    (fear_value : Option ℤ) (fees : Option Fees) :
    (check_indexes price btc_ath ma200 mayer fear_value fees).2 =
      (check_indexes price btc_ath ma200 mayer fear_value fees).1.length := by
  simp only [check_indexes]
  cases hb : buyCond mayer fear_value <;>
    cases ht : transferCond (fees.bind Fees.halfHourFee) <;>
      cases hm : missingData price btc_ath ma200 mayer fear_value fees <;> simp

/-- The buy-signal chunk occurs in the message exactly when the buy guard fires. -/
lemma buy_mem_iff (price btc_ath : Option ℚ) (ma200 : Option ℤ) (mayer : Option ℚ)
    (fear_value : Option ℤ) (fees : Option Fees) :
    buySignalLine ∈ (check_indexes price btc_ath ma200 mayer fear_value fees).1 ↔
      buyCond mayer fear_value = true := by
  rw [check_msg_shape]
  cases hb : buyCond mayer fear_value <;>
    cases ht : transferCond (fees.bind Fees.halfHourFee) <;>
      cases hm : missingData price btc_ath ma200 mayer fear_value fees <;>
        simp [buy_ne_transfer, buy_ne_missing, buy_ne_nosig]

/-- The transfer-signal chunk occurs in the message exactly when the transfer
guard fires. -/
lemma transfer_mem_iff (price btc_ath : Option ℚ) (ma200 : Option ℤ) (mayer : Option ℚ)
    (fear_value : Option ℤ) (fees : Option Fees) :
    transferSignalLine ∈ (check_indexes price btc_ath ma200 mayer fear_value fees).1 ↔
      transferCond (fees.bind Fees.halfHourFee) = true := by
  rw [check_msg_shape]
  cases hb : buyCond mayer fear_value <;>
    cases ht : transferCond (fees.bind Fees.halfHourFee) <;>
      cases hm : missingData price btc_ath ma200 mayer fear_value fees <;>
        simp [Ne.symm buy_ne_transfer, transfer_ne_missing, transfer_ne_nosig]

/-- The missing-data chunk occurs in the message exactly when some evaluator
input is absent. -/
lemma missing_mem_iff (price btc_ath : Option ℚ) (ma200 : Option ℤ) (mayer : Option ℚ)
    (fear_value : Option ℤ) (fees : Option Fees) :
    missingDataLine ∈ (check_indexes price btc_ath ma200 mayer fear_value fees).1 ↔
      missingData price btc_ath ma200 mayer fear_value fees = true := by
  rw [check_msg_shape]
  cases hb : buyCond mayer fear_value <;>
    cases ht : transferCond (fees.bind Fees.halfHourFee) <;>
      cases hm : missingData price btc_ath ma200 mayer fear_value fees <;>
        simp [Ne.symm buy_ne_missing, Ne.symm transfer_ne_missing, missing_ne_nosig]

/-- The fallback chunk occurs in the message exactly when none of the three
advisory chunks was appended. -/
lemma nosig_mem_iff (price btc_ath : Option ℚ) (ma200 : Option ℤ) (mayer : Option ℚ)
    (fear_value : Option ℤ) (fees : Option Fees) :
    noSignalsLine ∈ (check_indexes price btc_ath ma200 mayer fear_value fees).1 ↔
      (buyCond mayer fear_value = false ∧
        transferCond (fees.bind Fees.halfHourFee) = false ∧
          missingData price btc_ath ma200 mayer fear_value fees = false) := by
  rw [check_msg_shape]
  cases hb : buyCond mayer fear_value <;>
    cases ht : transferCond (fees.bind Fees.halfHourFee) <;>
      cases hm : missingData price btc_ath ma200 mayer fear_value fees <;>
        simp [Ne.symm buy_ne_nosig, Ne.symm transfer_ne_nosig, Ne.symm missing_ne_nosig]

/-- A numeric guard succeeds only on a numeric value. -/
lemma asNum_eq_some (o : Option JSON) (q : ℚ) (h : asNum o = some q) :
    o = some (JSON.num q) := by
  match o with
  | none => simp [asNum] at h
  | some (JSON.null) => simp [asNum] at h
  | some (JSON.num q₀) => simp [asNum] at h; rw [h]
  | some (JSON.str _) => simp [asNum] at h
  | some (JSON.arr _) => simp [asNum] at h
  | some (JSON.obj _) => simp [asNum] at h

/-- A guarded field read succeeds only on an object holding that field. -/
lemma getField_eq_some (o : Option JSON) (k : String) (v : JSON)
    (h : getField o k = some v) :
    ∃ kvs, o = some (JSON.obj kvs) ∧ pyGet kvs k = some v := by
  match o with
  | none => simp [getField, getObj] at h
  | some (JSON.null) => simp [getField, getObj] at h
  | some (JSON.num _) => simp [getField, getObj] at h
  | some (JSON.str _) => simp [getField, getObj] at h
  | some (JSON.arr _) => simp [getField, getObj] at h
  | some (JSON.obj kvs) =>
    refine ⟨kvs, rfl, ?_⟩
    simpa [getField, getObj] using h

/-- `get_btc_price` is populated only from a fully well-shaped response. -/
lemma get_btc_price_sound (resp : Option JSON) (q : ℚ)
    (h : get_btc_price resp = some q) :
    ∃ kvs bkvs, resp = some (JSON.obj kvs) ∧
      pyGet kvs "bitcoin" = some (JSON.obj bkvs) ∧
        pyGet bkvs "usd" = some (JSON.num q) := by
  have h1 := asNum_eq_some _ _ h
  obtain ⟨bkvs, hb, husd⟩ := getField_eq_some _ _ _ h1
  obtain ⟨kvs, hr, hbit⟩ := getField_eq_some _ _ _ hb
  exact ⟨kvs, bkvs, hr, hbit, husd⟩

/-- `get_btc_ath` is populated only from a fully well-shaped response. -/
lemma get_btc_ath_sound (resp : Option JSON) (q : ℚ)
    (h : get_btc_ath resp = some q) :
    ∃ kvs md ath, resp = some (JSON.obj kvs) ∧
      pyGet kvs "market_data" = some (JSON.obj md) ∧
        pyGet md "ath" = some (JSON.obj ath) ∧
          pyGet ath "usd" = some (JSON.num q) := by
  have h1 := asNum_eq_some _ _ h
  obtain ⟨ath, ha, husd⟩ := getField_eq_some _ _ _ h1
  obtain ⟨md, hm, hath⟩ := getField_eq_some _ _ _ ha
  obtain ⟨kvs, hr, hmd⟩ := getField_eq_some _ _ _ hm
  exact ⟨kvs, md, ath, hr, hmd, hath, husd⟩

/-- `get_200_day_ma` is populated only from a response holding a non-empty,
fully numeric price series, and the value is the floored mean. -/
lemma get_200_day_ma_sound (resp : Option JSON) (n : ℤ)
    (h : get_200_day_ma resp = some n) :
    ∃ kvs raw prices, resp = some (JSON.obj kvs) ∧
      pyGet kvs "prices" = some (JSON.arr raw) ∧ raw ≠ [] ∧
        extractPrices raw = some prices ∧
          n = ⌊prices.sum / (prices.length : ℚ)⌋ := by
  unfold get_200_day_ma at h
  split at h
  · rename_i prices_raw heq
    split at h
    · exact absurd h (by simp)
    · rename_i hne
      split at h
      · rename_i prices hx
        obtain ⟨kvs, hr, hp⟩ := getField_eq_some _ _ _ heq
        refine ⟨kvs, prices_raw, prices, hr, hp, ?_, hx, ?_⟩
        · simpa [List.isEmpty_iff] using hne
        · exact (Option.some.inj h).symm
      · exact absurd h (by simp)
  · exact absurd h (by simp)

/-- The fear/greed fetcher populates the value only on full success, and then
the label is populated as well. -/
lemma fng_value_some_label_some (resp : Option JSON) :
    (get_fear_and_greed resp).1.isSome = true →
      (get_fear_and_greed resp).2.isSome = true := by
  unfold get_fear_and_greed
  repeat' split
  all_goals simp

/-- Extraction over a literal `[timestamp, price]` series yields exactly the
price components. -/
lemma extractPrices_map (pairs : List (ℚ × ℚ)) :
    extractPrices (pairs.map fun tp => JSON.arr [JSON.num tp.1, JSON.num tp.2]) =
      some (pairs.map Prod.snd) := by
  induction pairs with
  | nil => rfl
  | cons hd tl ih => simp [extractPrices, item1Price, ih]

/-- Evaluation of `get_200_day_ma` on a response whose series extracts
cleanly. -/
lemma get_200_day_ma_on_series (raw : List JSON) (prices : List ℚ)
    (hraw : raw ≠ []) (hx : extractPrices raw = some prices) :
    get_200_day_ma (mkPricesResp raw) = some ⌊prices.sum / (prices.length : ℚ)⌋ := by
  have hg : getField (mkPricesResp raw) "prices" = some (JSON.arr raw) := rfl
  unfold get_200_day_ma
  rw [hg]
  dsimp only
  rw [hx, if_neg (by simpa using hraw)]

/-- Evaluation of `get_200_day_ma` on a response whose series fails to
extract. -/
lemma get_200_day_ma_on_bad_series (raw : List JSON) (hx : extractPrices raw = none) :
    get_200_day_ma (mkPricesResp raw) = none := by
  have hg : getField (mkPricesResp raw) "prices" = some (JSON.arr raw) := rfl
  unfold get_200_day_ma
  rw [hg]
  dsimp only
  rw [hx]
  simp

/-! Claim theorems. -/

/-- C1: counterexample.  On a fear/greed response whose first element carries
a valid label but a value on which the `int()` coercion fails, the fetcher
returns a PARTIAL pair: the value is absent while the label is populated —
not the absence marker for the whole result. -/
theorem claim1_fng_label_retained_cex :
    (get_fear_and_greed fngLabelOnlyResp).1 = none ∧
    (get_fear_and_greed fngLabelOnlyResp).2 = some (JSON.str "Fear") :=
  ⟨rfl, rfl⟩

/-- C1 (amended): on any failure the price, ATH and moving-average fetchers
return the absence marker for their whole result — each is populated only by
a fully well-shaped response — and none of the four fetchers raises past its
boundary (they are total).  The fear/greed fetcher populates its value only
on full success and a populated value implies a populated label, but when the
failure occurs after the label was extracted (value missing, or its integer
coercion failing) the returned pair retains the label with the value absent. -/
theorem claim1_whole_result_absence :
    (∀ resp q, get_btc_price resp = some q → ∃ kvs bkvs,
      resp = some (JSON.obj kvs) ∧ pyGet kvs "bitcoin" = some (JSON.obj bkvs) ∧
        pyGet bkvs "usd" = some (JSON.num q)) ∧
    (∀ resp q, get_btc_ath resp = some q → ∃ kvs md ath,
      resp = some (JSON.obj kvs) ∧ pyGet kvs "market_data" = some (JSON.obj md) ∧
        pyGet md "ath" = some (JSON.obj ath) ∧ pyGet ath "usd" = some (JSON.num q)) ∧
    (∀ resp n, get_200_day_ma resp = some n → ∃ kvs raw prices,
      resp = some (JSON.obj kvs) ∧ pyGet kvs "prices" = some (JSON.arr raw) ∧
        raw ≠ [] ∧ extractPrices raw = some prices ∧
          n = ⌊prices.sum / (prices.length : ℚ)⌋) ∧
    (∀ resp, (get_fear_and_greed resp).1.isSome = true →
      (get_fear_and_greed resp).2.isSome = true) :=
  ⟨get_btc_price_sound, get_btc_ath_sound, get_200_day_ma_sound, fng_value_some_label_some⟩

/-- C1 witness: the amended theorem applied at concrete well-formed inputs. -/
theorem claim1_whole_result_absence_w :
    (∃ kvs bkvs, priceGoodResp = some (JSON.obj kvs) ∧
      pyGet kvs "bitcoin" = some (JSON.obj bkvs) ∧
        pyGet bkvs "usd" = some (JSON.num 42)) ∧
    (get_fear_and_greed fngGoodResp).2.isSome = true :=
  ⟨claim1_whole_result_absence.1 priceGoodResp 42 rfl,
    claim1_whole_result_absence.2.2.2 fngGoodResp rfl⟩

/-- C2: counterexample.  With the price absent and both thresholds met, the
returned message carries the missing-data warning as its LAST chunk, after
the buy-signal and transfer-signal chunks — not first as the claim states. -/
theorem claim2_order_cex :
    (check_indexes none (some 1) (some 1) (some ((4 : ℚ) / 5)) (some 20)
        (some ⟨none, some 10, none⟩)).1 =
      [buySignalLine, transferSignalLine, missingDataLine] ∧
    [buySignalLine, transferSignalLine, missingDataLine] ≠
      [missingDataLine, buySignalLine, transferSignalLine] := by
  constructor
  · rw [check_msg_shape]
    norm_num [buyCond, transferCond, missingData, MAYER_BUY_THRESHOLD,
      FEAR_GREED_BUY_THRESHOLD, FEE_TRANSFER_THRESHOLD]
  · decide

/-- C2 (amended): for every evaluator input, the advisory chunks present in
the returned message appear concatenated in the order buy-signal line first
(when its thresholds are met), then transfer-signal line (when its threshold
is met), then missing-data warning line last (when any of the six inputs is
absent); the missing-data warning never suppresses the other lines, and the
fallback line appears exactly when no other line does. -/
theorem claim2_order_amended (price btc_ath : Option ℚ) (ma200 : Option ℤ)
    (mayer : Option ℚ) (fear_value : Option ℤ) (fees : Option Fees) :
    (check_indexes price btc_ath ma200 mayer fear_value fees).1 =
      if buyCond mayer fear_value || transferCond (fees.bind Fees.halfHourFee) ||
          missingData price btc_ath ma200 mayer fear_value fees then
        (if buyCond mayer fear_value then [buySignalLine] else []) ++
          (if transferCond (fees.bind Fees.halfHourFee) then [transferSignalLine] else []) ++
            (if missingData price btc_ath ma200 mayer fear_value fees then [missingDataLine]
              else [])
      else [noSignalsLine] :=
  check_msg_shape price btc_ath ma200 mayer fear_value fees

/-- C3: counterexample.  At price 0 and moving average 50 both inputs are
present and the moving average is nonzero, so the claim demands
`round(0 / 50, 2)`; the code's truthiness test on the price yields absence. -/
theorem claim3_mayer_cex :
    calculate_mayer_index (some 0) (some 50) = none ∧
    (none : Option ℚ) ≠ some (round2 ((0 : ℚ) / (50 : ℚ))) :=
  ⟨by simp [calculate_mayer_index], by simp⟩

/-- C3 (amended): the Mayer Multiple equals `round(price / moving_average, 2)`
whenever both inputs are present and BOTH are nonzero — Python truthiness
guards the price as well as the moving average — and is absent otherwise; the
spec's spot checks hold. -/
theorem claim3_mayer_amended :
    (∀ (p : ℚ) (ma : ℤ), p ≠ 0 → ma ≠ 0 →
      calculate_mayer_index (some p) (some ma) = some (round2 (p / (ma : ℚ)))) ∧
    (∀ ma, calculate_mayer_index (some 0) ma = none) ∧
    (∀ p, calculate_mayer_index p (some 0) = none) ∧
    (∀ ma, calculate_mayer_index none ma = none) ∧
    (∀ p, calculate_mayer_index p none = none) ∧
    calculate_mayer_index (some 100) (some 50) = some 2 ∧
    calculate_mayer_index (some 100) (some 0) = none ∧
    calculate_mayer_index none (some 50) = none := by
  refine ⟨?_, ?_, ?_, ?_, ?_, ?_, by simp [calculate_mayer_index], rfl⟩
  · intro p ma hp hma
    simp [calculate_mayer_index, hp, hma]
  · intro ma
    cases ma <;> simp [calculate_mayer_index]
  · intro p
    cases p <;> simp [calculate_mayer_index]
  · intro ma
    cases ma <;> rfl
  · intro p
    cases p <;> rfl
  · norm_num [calculate_mayer_index, round2, roundHalfEven, Int.fract]

/-- C3 witness: the amended theorem applied at price 100, moving average 50. -/
theorem claim3_mayer_amended_w :
    calculate_mayer_index (some 100) (some 50) =
      some (round2 ((100 : ℚ) / ((50 : ℤ) : ℚ))) :=
  claim3_mayer_amended.1 100 50 (by norm_num) (by norm_num)

/-- C4: the informational fallback line is produced iff the message is still
empty after all other rules; with all six inputs present and no threshold
met the result is exactly the single fallback line with count 1; with data
missing and no threshold met the result is exactly the missing-data warning
line, not the fallback. -/
theorem claim4_no_signals_fallback (price btc_ath : Option ℚ) (ma200 : Option ℤ)
    (mayer : Option ℚ) (fear_value : Option ℤ) (fees : Option Fees) :
    (noSignalsLine ∈ (check_indexes price btc_ath ma200 mayer fear_value fees).1 ↔
      (buyCond mayer fear_value = false ∧
        transferCond (fees.bind Fees.halfHourFee) = false ∧
          missingData price btc_ath ma200 mayer fear_value fees = false)) ∧
    (buyCond mayer fear_value = false →
      transferCond (fees.bind Fees.halfHourFee) = false →
        missingData price btc_ath ma200 mayer fear_value fees = false →
          check_indexes price btc_ath ma200 mayer fear_value fees = ([noSignalsLine], 1)) ∧
    (buyCond mayer fear_value = false →
      transferCond (fees.bind Fees.halfHourFee) = false →
        missingData price btc_ath ma200 mayer fear_value fees = true →
          check_indexes price btc_ath ma200 mayer fear_value fees = ([missingDataLine], 1)) := by
  refine ⟨nosig_mem_iff price btc_ath ma200 mayer fear_value fees, ?_, ?_⟩
  · intro hb ht hm
    simp [check_indexes, hb, ht, hm]
  · intro hb ht hm
    simp [check_indexes, hb, ht, hm]

/-- C4 witness: all six inputs present, no threshold met. -/
theorem claim4_no_signals_fallback_w :
    check_indexes (some 1) (some 1) (some 1) (some 2) (some 30)
        (some ⟨none, none, none⟩) = ([noSignalsLine], 1) :=
  (claim4_no_signals_fallback (some 1) (some 1) (some 1) (some 2) (some 30)
      (some ⟨none, none, none⟩)).2.1
    (by norm_num [buyCond, MAYER_BUY_THRESHOLD])
    (by simp [transferCond])
    (by simp [missingData])

/-- C5: the count returned by the evaluator equals the number of advisory
lines in the returned message, and each main-loop cycle erases exactly that
count plus 7 terminal lines before the next redraw. -/
theorem claim5_count_and_erase :
    (∀ (price btc_ath : Option ℚ) (ma200 : Option ℤ) (mayer : Option ℚ)
        (fear_value : Option ℤ) (fees : Option Fees),
      (check_indexes price btc_ath ma200 mayer fear_value fees).2 =
        (check_indexes price btc_ath ma200 mayer fear_value fees).1.length) ∧
    (∀ r1 r2 r3 r4 r5 : Option JSON,
      (main_cycle r1 r2 r3 r4 r5).2.2 = (main_cycle r1 r2 r3 r4 r5).2.1 + 7 ∧
        (main_cycle r1 r2 r3 r4 r5).2.2 = (main_cycle r1 r2 r3 r4 r5).1.length + 7) :=
  ⟨check_count_eq_length, fun r1 r2 r3 r4 r5 =>
    ⟨rfl, by simp [main_cycle, check_count_eq_length]⟩⟩

/-- C6: each fee field is validated independently — a response missing
`hourFee` but carrying valid `fastestFee` and `halfHourFee` degrades only
`hourFee`, and in general each returned field depends only on its own key. -/
theorem claim6_fee_independence :
    (∀ f h : ℚ,
      get_transfer_fees (some (JSON.obj
          [("fastestFee", JSON.num f), ("halfHourFee", JSON.num h)])) =
        ⟨some f, some h, none⟩) ∧
    (∀ kvs kvs₂, pyGet kvs "fastestFee" = pyGet kvs₂ "fastestFee" →
      (get_transfer_fees (some (JSON.obj kvs))).fastestFee =
        (get_transfer_fees (some (JSON.obj kvs₂))).fastestFee) ∧
    (∀ kvs kvs₂, pyGet kvs "halfHourFee" = pyGet kvs₂ "halfHourFee" →
      (get_transfer_fees (some (JSON.obj kvs))).halfHourFee =
        (get_transfer_fees (some (JSON.obj kvs₂))).halfHourFee) ∧
    (∀ kvs kvs₂, pyGet kvs "hourFee" = pyGet kvs₂ "hourFee" →
      (get_transfer_fees (some (JSON.obj kvs))).hourFee =
        (get_transfer_fees (some (JSON.obj kvs₂))).hourFee) := by
  refine ⟨fun f h => rfl, ?_, ?_, ?_⟩ <;>
    · intro kvs kvs₂ hk
      simp [get_transfer_fees, getObj, numField, hk]

/-- C6 witness: dropping `hourFee` from a response leaves `fastestFee`
untouched. -/
theorem claim6_fee_independence_w :
    (get_transfer_fees (some (JSON.obj
        [("fastestFee", JSON.num 5), ("hourFee", JSON.num 7)]))).fastestFee =
      (get_transfer_fees (some (JSON.obj [("fastestFee", JSON.num 5)]))).fastestFee :=
  claim6_fee_independence.2.1
    [("fastestFee", JSON.num 5), ("hourFee", JSON.num 7)]
    [("fastestFee", JSON.num 5)] rfl

/-- C7: with mayer and the fear value both present, the buy-signal line is
in the message iff mayer < 1.0 and fear ≤ 25; the spec's spot checks hold. -/
theorem claim7_buy_signal_iff (price btc_ath : Option ℚ) (ma200 : Option ℤ)
    (m : ℚ) (v : ℤ) (fees : Option Fees) :
    (buySignalLine ∈ (check_indexes price btc_ath ma200 (some m) (some v) fees).1 ↔
      (m < MAYER_BUY_THRESHOLD ∧ v ≤ FEAR_GREED_BUY_THRESHOLD)) ∧
    buySignalLine ∈ (check_indexes (some 100) (some 100) (some 100)
        (some ((8 : ℚ) / 10)) (some 20) (some ⟨none, none, none⟩)).1 ∧
    buySignalLine ∉ (check_indexes (some 100) (some 100) (some 100)
        (some ((12 : ℚ) / 10)) (some 20) (some ⟨none, none, none⟩)).1 := by
  refine ⟨?_, ?_, ?_⟩
  · rw [buy_mem_iff]
    simp [buyCond]
  · rw [buy_mem_iff]
    norm_num [buyCond, MAYER_BUY_THRESHOLD, FEAR_GREED_BUY_THRESHOLD]
  · rw [buy_mem_iff]
    norm_num [buyCond, MAYER_BUY_THRESHOLD, FEAR_GREED_BUY_THRESHOLD]

/-- C8: with the half-hour fee present, the transfer-signal line is in the
message iff that fee is ≤ 15 sat/vB; the spec's spot checks hold. -/
theorem claim8_transfer_signal_iff (price btc_ath : Option ℚ) (ma200 : Option ℤ)
    (mayer : Option ℚ) (fear_value : Option ℤ) (f₁ f₃ : Option ℚ) (h : ℚ) :
    (transferSignalLine ∈ (check_indexes price btc_ath ma200 mayer fear_value
        (some ⟨f₁, some h, f₃⟩)).1 ↔ h ≤ FEE_TRANSFER_THRESHOLD) ∧
    transferSignalLine ∈ (check_indexes (some 100) (some 100) (some 100)
        (some 2) (some 50) (some ⟨none, some 10, none⟩)).1 ∧
    transferSignalLine ∉ (check_indexes (some 100) (some 100) (some 100)
        (some 2) (some 50) (some ⟨none, some 20, none⟩)).1 := by
  refine ⟨?_, ?_, ?_⟩
  · rw [transfer_mem_iff]
    simp [transferCond]
  · rw [transfer_mem_iff]
    norm_num [transferCond, FEE_TRANSFER_THRESHOLD]
  · rw [transfer_mem_iff]
    norm_num [transferCond, FEE_TRANSFER_THRESHOLD]

/-- C9: on a well-formed non-empty `[timestamp, price]` series the
moving-average fetcher returns the floor of the arithmetic mean of the price
components; an empty series, a failed response, or a malformed series yields
the absence marker. -/
theorem claim9_moving_average (pairs : List (ℚ × ℚ)) (hne : pairs ≠ []) :
    get_200_day_ma (mkPricesResp
        (pairs.map fun tp => JSON.arr [JSON.num tp.1, JSON.num tp.2])) =
      some ⌊(pairs.map Prod.snd).sum / (pairs.length : ℚ)⌋ ∧
    get_200_day_ma (mkPricesResp []) = none ∧
    get_200_day_ma none = none ∧
    (∀ raw, extractPrices raw = none →
      get_200_day_ma (mkPricesResp raw) = none) := by
  refine ⟨?_, rfl, rfl, fun raw hx => get_200_day_ma_on_bad_series raw hx⟩
  have h := get_200_day_ma_on_series
    (pairs.map fun tp => JSON.arr [JSON.num tp.1, JSON.num tp.2])
    (pairs.map Prod.snd) (by simpa using hne) (extractPrices_map pairs)
  simpa [List.length_map] using h

/-- C9 witness: a one-sample series. -/
theorem claim9_moving_average_w :
    get_200_day_ma (mkPricesResp
        ([((1 : ℚ), (3 : ℚ))].map fun tp => JSON.arr [JSON.num tp.1, JSON.num tp.2])) =
      some 3 := by
  have h := (claim9_moving_average [((1 : ℚ), (3 : ℚ))] (by simp)).1
  norm_num at h
  exact h

/-- C10: the fee fetcher always hands back the three-key mapping itself —
on total request failure all three values are absent but the mapping is
still a dictionary, never the absence marker — so the evaluator's
missing-data check is never triggered by the fee mapping: the warning's
presence is independent of the fee response. -/
theorem claim10_fees_always_dict :
    (∀ resp, ∃ fees : Fees, some (get_transfer_fees resp) = some fees) ∧
    get_transfer_fees none = ⟨none, none, none⟩ ∧
    (∀ r1 r2 r3 r4 r5 r5x : Option JSON,
      (missingDataLine ∈ (main_cycle r1 r2 r3 r4 r5).1 ↔
        missingDataLine ∈ (main_cycle r1 r2 r3 r4 r5x).1)) := by
  refine ⟨fun resp => ⟨get_transfer_fees resp, rfl⟩, rfl, ?_⟩
  intro r1 r2 r3 r4 r5 r5x
  simp only [main_cycle]
  rw [missing_mem_iff, missing_mem_iff]
  simp [missingData]

end BtcIndexes
